import Mathlib

/-!
Verification development for the contact-identity resolution and
de-duplication logic of `scripts/process_daily_sync.py`.

The Python functions are shallowly embedded as executable Lean
definitions operating on `List Char` representations of Python
strings.  Python `set`s become `Finset String`, the Contacts map
(`Dict[str, str]`) becomes `String → Option String`, and the
per-contact loop of `generate_new_people_candidates_report` becomes a
fold over an accumulator record.
-/

namespace PDS

/-! ## Python string primitives -/

/-- Python `str.strip()` on a character list: drop leading and trailing
whitespace. -/
def pyStripList (l : List Char) : List Char :=
  ((l.dropWhile Char.isWhitespace).reverse.dropWhile Char.isWhitespace).reverse

/-- Python `str.strip()`. -/
def pyStrip (s : String) : String := String.mk (pyStripList s.data)

/-- Python `str.lower()` (ASCII case folding, as in `Char.toLower`). -/
def pyLower (s : String) : String := String.mk (s.data.map Char.toLower)

/-- Python `s.startswith(pre)`. -/
def pyStartsWith (s pre : String) : Bool := pre.data.isPrefixOf s.data

/-- Python `ch in s` for a single character. -/
def strContainsChar (s : String) (ch : Char) : Bool := s.data.contains ch

/-- Substring test on character lists (Python `pat in s`). -/
def subList (pat : List Char) : List Char → Bool
  | [] => pat.isPrefixOf []
  | c :: rest => pat.isPrefixOf (c :: rest) || subList pat rest

/-- Python `pat in s` for strings. -/
def containsSubstring (s pat : String) : Bool := subList pat.data s.data

/-- Python `s[n:]` (drop the first `n` characters). -/
def strDropChars (s : String) (n : Nat) : String := String.mk (s.data.drop n)

/-- Python `s[:n]` (take the first `n` characters). -/
def strTakeChars (s : String) (n : Nat) : String := String.mk (s.data.take n)

/-- The characters removed by the repeated `.replace` chains in
`resolve_phone_to_name` / `load_contacts_map` / `is_phone_number`:
`+`, `(`, `)`, space and hyphen. -/
def isPhonePunct (c : Char) : Bool :=
  c = '+' || c = '(' || c = ')' || c = ' ' || c = '-'

/-- `s.replace("+","").replace("(","").replace(")","").replace(" ","").replace("-","")`. -/
def stripPunct (s : String) : String :=
  String.mk (s.data.filter (fun c => !isPhonePunct c))

/-! ## Identity normalizer (`normalize_phone`, `normalize_email`,
`is_phone_number`, `slugify`) -/

/-- `normalize_phone` from `process_daily_sync.py` (lines 191-198):
strip, remember a leading `+`, keep only digits. -/
def normalize_phone (raw : String) : String :=
  if raw = "" then ""
  else
    let r := pyStrip raw
    let plus : String := if pyStartsWith r "+" then "+" else ""
    let ds := r.data.filter Char.isDigit
    if ds.isEmpty then "" else plus ++ String.mk ds

/-- `normalize_email` (lines 200-203). -/
def normalize_email (raw : String) : String :=
  if raw = "" then "" else pyLower (pyStrip raw)

/-- `is_phone_number` (lines 179-184): after removing `+ - ( ) space`,
the rest is all digits and at least 7 characters long. -/
def is_phone_number (name : String) : Bool :=
  if name = "" then false
  else
    let cleaned := name.data.filter (fun c => !isPhonePunct c)
    cleaned ≠ [] && cleaned.all Char.isDigit && decide (7 ≤ cleaned.length)

/-- Characters kept verbatim by `slugify`: `[a-z0-9]`. -/
def isSlugChar (c : Char) : Bool :=
  (('a' ≤ c && c ≤ 'z') || ('0' ≤ c && c ≤ '9'))

/-- Helper for `collapseStars`: the flag records whether we are inside
a run of `*` markers. -/
def collapseStarsAux : List Char → Bool → List Char
  | [], _ => []
  | c :: rest, inRun =>
    if c = '*' then
      if inRun then collapseStarsAux rest true
      else '-' :: collapseStarsAux rest true
    else c :: collapseStarsAux rest false

/-- Collapse every maximal run of `*` markers into a single `-`
(the `re.sub(r'[^a-z0-9]+', '-', ...)` step, after non-slug characters
have been marked with `*`). -/
def collapseStars (l : List Char) : List Char := collapseStarsAux l false

/-- Python `s.strip('-')`. -/
def trimDashes (l : List Char) : List Char :=
  ((l.dropWhile (fun c => c = '-')).reverse.dropWhile (fun c => c = '-')).reverse

/-- `slugify` (lines 187-188): lowercase, collapse non-`[a-z0-9]` runs
to `-`, strip `-` from both ends. -/
def slugify (name : String) : String :=
  let lowered := (pyLower name).data
  let marked := lowered.map (fun c => if isSlugChar c then c else '*')
  String.mk (trimDashes (collapseStars marked))

/-! ## Contacts map and `resolve_phone_to_name` -/

/-- The Contacts map built by `load_contacts_map`. -/
def ContactsMap := String → Option String

/-- The empty Contacts map. -/
def emptyMap : ContactsMap := fun _ => none

/-- Registration of one phone row by `load_contacts_map`
(lines 120-128): the raw phone, the phone without its leading `+` (when
present) and the punctuation-stripped variant all map to the name —
guarded by `if phone and name and name != "Unknown"`. -/
def registerPhone (phone nm : String) (m : ContactsMap) : ContactsMap :=
  if phone ≠ "" ∧ nm ≠ "" ∧ nm ≠ "Unknown" then
    fun k =>
      if k = phone ∨ (pyStartsWith phone "+" ∧ k = strDropChars phone 1) ∨ k = stripPunct phone
      then some nm else m k
  else m

/-- `resolve_phone_to_name` (lines 158-176): only `+`-prefixed
identifiers are looked up, via exact / plus-less / punctuation-stripped
keys; every miss falls through, a total miss returns `""`. -/
def resolve_phone_to_name (ident : String) (m : ContactsMap) : String :=
  if ident = "" || !pyStartsWith ident "+" then ""
  else
    match m ident with
    | some v => v
    | none =>
      match m (strDropChars ident 1) with
      | some v => v
      | none =>
        match m (stripPunct ident) with
        | some v => v
        | none => ""

/-! ## `parse_dt_maybe` (lines 325-340) and the sort key -/

/-- A `datetime.datetime` value as produced by `strptime` with the
three formats used in `parse_dt_maybe`. -/
structure PyDateTime where
  year : Nat
  month : Nat
  day : Nat
  hour : Nat
  minute : Nat
  second : Nat
deriving DecidableEq, Repr

/-- `datetime.min`. -/
def datetimeMin : PyDateTime := ⟨1, 1, 1, 0, 0, 0⟩

/-- Mixed-radix encoding of a datetime; on field values inside their
`datetime` ranges (month ≤ 12, day ≤ 31, hour ≤ 23, minute/second ≤ 59)
it is strictly monotone in the lexicographic field order, so comparing
keys is comparing datetimes. -/
def dtKey (d : PyDateTime) : Nat :=
  ((((d.year * 13 + d.month) * 32 + d.day) * 24 + d.hour) * 60 + d.minute) * 60 + d.second

/-- Numeric value of a digit run. -/
def digitsVal (ds : List Char) : Nat :=
  ds.foldl (fun a c => a * 10 + (c.toNat - 48)) 0

/-- Match one `%Y`/`%m`/… directive: a digit run of length `1..cap`
(the `_strptime` regex `\d{1,cap}`; a longer run cannot match because
the following format character is never a digit). -/
def parseNumUpTo (cap : Nat) (cs : List Char) : Option (Nat × List Char) :=
  let ds := cs.takeWhile Char.isDigit
  if 1 ≤ ds.length ∧ ds.length ≤ cap then some (digitsVal ds, cs.drop ds.length)
  else none

/-- Match one literal separator character. -/
def parseChar (ch : Char) : List Char → Option (List Char)
  | [] => none
  | c :: rest => if c = ch then some rest else none

/-- Match the whitespace between date and time (`\s+` for the literal
space in the format string). -/
def parseWS (cs : List Char) : Option (List Char) :=
  let ws := cs.takeWhile Char.isWhitespace
  if ws.length = 0 then none else some (cs.drop ws.length)

/-- Days per month, with the Gregorian leap rule (`datetime` validates
the day against the month). -/
def daysInMonth (y m : Nat) : Nat :=
  if m = 2 then
    if y % 4 = 0 ∧ (y % 100 ≠ 0 ∨ y % 400 = 0) then 29 else 28
  else if m = 4 ∨ m = 6 ∨ m = 9 ∨ m = 11 then 30
  else 31

/-- Range validation done by the `datetime` constructor; out-of-range
fields make `strptime` raise, i.e. yield `none` here. -/
def mkValidDT (y mo d h mi s : Nat) : Option PyDateTime :=
  if 1 ≤ y ∧ y ≤ 9999 ∧ 1 ≤ mo ∧ mo ≤ 12 ∧ 1 ≤ d ∧ d ≤ daysInMonth y mo ∧
     h ≤ 23 ∧ mi ≤ 59 ∧ s ≤ 59
  then some ⟨y, mo, d, h, mi, s⟩ else none

/-- `strptime(s, "%Y-%m-%d")`, whole input consumed. -/
def strptimeYMD (cs : List Char) : Option (Nat × Nat × Nat × List Char) := do
  let (y, cs) ← parseNumUpTo 4 cs
  let cs ← parseChar '-' cs
  let (mo, cs) ← parseNumUpTo 2 cs
  let cs ← parseChar '-' cs
  let (d, cs) ← parseNumUpTo 2 cs
  pure (y, mo, d, cs)

/-- `strptime` with format `"%Y-%m-%d %H:%M:%S"`. -/
def strptimeFull (cs : List Char) : Option PyDateTime := do
  let (y, mo, d, cs) ← strptimeYMD cs
  let cs ← parseWS cs
  let (h, cs) ← parseNumUpTo 2 cs
  let cs ← parseChar ':' cs
  let (mi, cs) ← parseNumUpTo 2 cs
  let cs ← parseChar ':' cs
  let (s, cs) ← parseNumUpTo 2 cs
  if cs = [] then mkValidDT y mo d h mi s else none

/-- `strptime` with format `"%Y-%m-%d %H:%M"`. -/
def strptimeNoSec (cs : List Char) : Option PyDateTime := do
  let (y, mo, d, cs) ← strptimeYMD cs
  let cs ← parseWS cs
  let (h, cs) ← parseNumUpTo 2 cs
  let cs ← parseChar ':' cs
  let (mi, cs) ← parseNumUpTo 2 cs
  if cs = [] then mkValidDT y mo d h mi 0 else none

/-- `strptime` with format `"%Y-%m-%d"`. -/
def strptimeDateOnly (cs : List Char) : Option PyDateTime := do
  let (y, mo, d, cs) ← strptimeYMD cs
  if cs = [] then mkValidDT y mo d 0 0 0 else none

/-- `parse_dt_maybe` (lines 325-340): strip, then try the three
formats in order, each on a slice of the expected timestamp length;
any failure falls through, total failure returns `None`.  The
`try/except` of the original means this function never raises. -/
def parse_dt_maybe (s : String) : Option PyDateTime :=
  if s = "" then none
  else
    let t := (pyStrip s).data
    match strptimeFull (t.take 19) with
    | some d => some d
    | none =>
      match strptimeNoSec (t.take 16) with
      | some d => some d
      | none => strptimeDateOnly (t.take 10)

/-! ## Observed contacts and the system-contact heuristic -/

/-- One entry of a contact's `recent` preview list. -/
structure Msg where
  sender : String
  date : String
  preview : String
deriving DecidableEq, Repr

/-- An Observed Contact as produced by `parse_imessage_export`. -/
structure Contact where
  name : String
  identifier : String
  last_msg : String
  recent : List Msg
  resolved_name : Option String := none
deriving DecidableEq, Repr

/-- The sort key of `generate_new_people_candidates_report`
(lines 434-435): `parse_dt_maybe(c.get('last_msg') or '') or datetime.min`. -/
def sortKey (c : Contact) : Nat :=
  dtKey ((parse_dt_maybe c.last_msg).getD datetimeMin)

/-- `IMESSAGE_EXCLUDE_NAMES` (lines 83-86). -/
def IMESSAGE_EXCLUDE_NAMES : List String :=
  ["dad", "mom", "mum", "mother", "father", "grandma", "grandpa"]

/-- `IMESSAGE_SYSTEM_MARKERS` (lines 70-81). -/
def IMESSAGE_SYSTEM_MARKERS : List String :=
  ["verification code", "one-time passcode", "we\x27ll never ask you for it",
   "track your order", "estimated delivery window", "your order",
   "reply at http", "reply at https", "view at:", "sent a text blast",
   "support@", "noreply", "no-reply",
   "x$versiony$archivert$topx$objects", "nsattributedstring",
   "streamtyped@nsattributedstring"]

/-- `re.fullmatch(r'\d{4,6}', s)`: 4 to 6 characters, all digits. -/
def isShortCode (s : String) : Bool :=
  decide (4 ≤ s.data.length) && decide (s.data.length ≤ 6) && s.data.all Char.isDigit

/-- The lowercased concatenation (space-joined) of a contact's recent
message previews (line 354). -/
def previewsBlob (c : Contact) : String :=
  pyLower (String.intercalate " " (c.recent.map (fun m => m.preview)))

/-- Does some fixed marker phrase occur in the previews? -/
def markerHit (c : Contact) : Bool :=
  IMESSAGE_SYSTEM_MARKERS.any (fun mrk => containsSubstring (previewsBlob c) mrk)

/-- `is_likely_system_imessage_contact` (lines 343-361).  Note that the
short-code test is applied to `name or identifier` (the identifier is
only consulted when the name is empty) and the `unknown`/`identifier`
literal test is applied to the name only. -/
def is_likely_system_imessage_contact (c : Contact) : Bool :=
  let name := pyStrip c.name
  let ident := pyStrip c.identifier
  if isShortCode (if name = "" then ident else name) then true
  else if pyLower name = "unknown" ∨ pyLower name = "identifier" then true
  else if markerHit c then true
  else if (pyStartsWith name "+" || pyStartsWith ident "+") && markerHit c then true
  else false

/-! ## Free-text extraction (`extract_phones`, `extract_emails`) -/

/-- First-occurrence deduplication (Python's `list(set(...))`, which
only determines membership; we fix the first-occurrence order). -/
def pyDedupAux : List String → List String → List String
  | [], _ => []
  | x :: rest, seen =>
    if x ∈ seen then pyDedupAux rest seen else x :: pyDedupAux rest (x :: seen)

/-- Deduplicate a list of strings. -/
def pyDedup (l : List String) : List String := pyDedupAux l []

/-- The character class `[\d()\s.\-]` of the phone regex. -/
def phoneClassChar (c : Char) : Bool :=
  c.isDigit || c = '(' || c = ')' || c.isWhitespace || c = '.' || c = '-'

/-- Index (within the class-character run) of the final `\d` of
`\+\d[\d()\s.\-]{7,}\d`: the largest digit position at offset ≥ 7,
exactly what the greedy `{7,}` with backtracking selects. -/
def phoneLastDigitIdx (run : List Char) : Option Nat :=
  ((run.enum.filter (fun pr => 7 ≤ pr.1 ∧ pr.2.isDigit)).getLast?).map (fun pr => pr.1)

/-- Try to match `\d[\d()\s.\-]{7,}\d` (the part after the `+`) at the
head of `cs`; returns the matched characters and the remainder. -/
def phoneTryMatch (cs : List Char) : Option (List Char × List Char) :=
  match cs with
  | [] => none
  | d :: cs2 =>
    if d.isDigit then
      match phoneLastDigitIdx (cs2.takeWhile phoneClassChar) with
      | some j => some (d :: (cs2.takeWhile phoneClassChar).take (j + 1), cs2.drop (j + 1))
      | none => none
    else none

/-- `re.findall(r'\+\d[\d()\s.\-]{7,}\d', text)`: left-to-right,
non-overlapping scan. -/
def phoneScan : Nat → List Char → List (List Char)
  | 0, _ => []
  | _ + 1, [] => []
  | fuel + 1, c :: rest =>
    if c = '+' then
      match phoneTryMatch rest with
      | some (m, rest2) => ('+' :: m) :: phoneScan fuel rest2
      | none => phoneScan fuel rest
    else phoneScan fuel rest

/-- `extract_phones` (lines 213-223): find `+`-prefixed phone-shaped
substrings, normalize each, keep the non-empty results as a set. -/
def extract_phones (text : String) : List String :=
  if text = "" then []
  else
    pyDedup (((phoneScan (text.data.length + 1) text.data).map
      (fun m => normalize_phone (String.mk m))).filter (fun p => p ≠ ""))

/-- Local-part characters `[a-zA-Z0-9._%+-]` of the email regex. -/
def emailLocalChar (c : Char) : Bool :=
  c.isAlphanum || c = '.' || c = '_' || c = '%' || c = '+' || c = '-'

/-- Domain characters `[a-zA-Z0-9.-]` of the email regex. -/
def emailDomainChar (c : Char) : Bool :=
  c.isAlphanum || c = '.' || c = '-'

/-- Match `\.[a-zA-Z]{2,}` backtracking inside the greedy domain run:
the last dot followed by at least two letters; result is the length of
the matched domain portion. -/
def emailDomainLen (dom : List Char) : Option Nat :=
  ((dom.enum.filter (fun pr =>
      pr.2 = '.' ∧ 2 ≤ ((dom.drop (pr.1 + 1)).takeWhile Char.isAlpha).length)).getLast?).map
    (fun pr => pr.1 + 1 + ((dom.drop (pr.1 + 1)).takeWhile Char.isAlpha).length)

/-- Try to match the email regex at the head of `cs`. -/
def emailTryMatch (cs : List Char) : Option (List Char × List Char) :=
  let loc := cs.takeWhile emailLocalChar
  if loc = [] then none
  else
    match cs.drop loc.length with
    | '@' :: rest =>
      let dom := rest.takeWhile emailDomainChar
      match emailDomainLen dom with
      | some n => some (loc ++ '@' :: dom.take n, rest.drop n)
      | none => none
    | _ => none

/-- Scan for all email-regex matches, left to right, non-overlapping. -/
def emailScan : Nat → List Char → List (List Char)
  | 0, _ => []
  | _ + 1, [] => []
  | fuel + 1, c :: rest =>
    match emailTryMatch (c :: rest) with
    | some (m, rest2) => m :: emailScan fuel rest2
    | none => emailScan fuel rest

/-- `extract_emails` (lines 206-210): all email-shaped substrings,
normalized, as a set. -/
def extract_emails (text : String) : List String :=
  if text = "" then []
  else
    pyDedup ((emailScan (text.data.length + 1) text.data).map
      (fun m => normalize_email (String.mk m)))

/-! ## People-file parsing (`parse_people_file`, `load_people_index`) -/

/-- Split on newlines (`re.MULTILINE` line structure). -/
def splitLinesAux : List Char → List Char → List (List Char)
  | [], acc => [acc.reverse]
  | c :: rest, acc =>
    if c = '\n' then acc.reverse :: splitLinesAux rest []
    else splitLinesAux rest (c :: acc)

/-- The lines of a text. -/
def pyLines (s : String) : List String := (splitLinesAux s.data []).map String.mk

/-- Match `^\s*#\s+(.+?)\s*$` on one line (a level-1 markdown title). -/
def titleOfLine (l : String) : Option String :=
  match l.data.dropWhile Char.isWhitespace with
  | '#' :: u =>
    match u with
    | c :: _ =>
      if c.isWhitespace then
        let v := pyStripList u
        if v ≠ [] then some (String.mk v) else none
      else none
    | [] => none
  | _ => none

/-- Match `^\s*-\s*\*\*Name:\*\*\s*(.+?)\s*$` on one line. -/
def nameFieldOfLine (l : String) : Option String :=
  match l.data.dropWhile Char.isWhitespace with
  | '-' :: u =>
    let t := u.dropWhile Char.isWhitespace
    if ("**Name:**".data).isPrefixOf t then
      let v := pyStripList (t.drop 9)
      if v ≠ [] then some (String.mk v) else none
    else none
  | _ => none

/-- Match a `\d{4}-\d{2}-\d{2}` date at the head of `cs`. -/
def dateAt (cs : List Char) : Option String :=
  match cs with
  | a :: b :: c :: d :: h1 :: e :: f :: h2 :: g :: k :: _ =>
    if a.isDigit ∧ b.isDigit ∧ c.isDigit ∧ d.isDigit ∧ h1 = '-' ∧
       e.isDigit ∧ f.isDigit ∧ h2 = '-' ∧ g.isDigit ∧ k.isDigit
    then some (String.mk [a, b, c, d, h1, e, f, h2, g, k]) else none
  | _ => none

/-- `re.search(r'(\d{4}-\d{2}-\d{2})', line)`: first date anywhere. -/
def findDateScan : List Char → Option String
  | [] => none
  | c :: rest =>
    match dateAt (c :: rest) with
    | some d => some d
    | none => findDateScan rest

/-- Match `^\s*-\s*\*\*Last Updated:\*\*\s*(\d{4}-\d{2}-\d{2})\s*$`. -/
def lastUpdatedFieldOfLine (l : String) : Option String :=
  match l.data.dropWhile Char.isWhitespace with
  | '-' :: u =>
    let t := u.dropWhile Char.isWhitespace
    if ("**Last Updated:**".data).isPrefixOf t then
      let t2 := (t.drop 17).dropWhile Char.isWhitespace
      match dateAt t2 with
      | some d =>
        if (t2.drop 10).all Char.isWhitespace then some d else none
      | none => none
    else none
  | _ => none

/-- Match `^\s*##\s+Last Updated\s*$`. -/
def isLastUpdatedHeader (l : String) : Bool :=
  match l.data.dropWhile Char.isWhitespace with
  | '#' :: '#' :: u =>
    match u with
    | c :: _ => c.isWhitespace && String.mk (pyStripList u) = "Last Updated"
    | [] => false
  | _ => false

/-- Index of the first element satisfying `p`, if any. -/
def firstIdxWhere (p : α → Bool) : List α → Option Nat
  | [] => none
  | x :: rest =>
    if p x then some 0 else (firstIdxWhere p rest).map (· + 1)

/-- `parse_last_updated_date` (lines 226-247): a structured
`- **Last Updated:** YYYY-MM-DD` field, or a `## Last Updated` heading
followed (within the next 10 physical lines, the first of which is the
empty remainder of the heading line) by a date. -/
def parse_last_updated_date (text : String) : Option PyDateTime :=
  if text = "" then none
  else
    let lines := pyLines text
    match lines.filterMap lastUpdatedFieldOfLine with
    | d :: _ => parse_dt_maybe d
    | [] =>
      match firstIdxWhere isLastUpdatedHeader lines with
      | some j =>
        match (("" :: lines.drop (j + 1)).take 10).filterMap
            (fun l => findDateScan l.data) with
        | d :: _ => parse_dt_maybe d
        | [] => none
      | none => none

/-- The quote characters opening an `aka "X"` alias. -/
def akaOpenQuote (c : Char) : Bool := c = '"' || c = '“'

/-- The quote characters closing an `aka "X"` alias. -/
def akaCloseQuote (c : Char) : Bool := c = '"' || c = '”'

/-- Try to match `aka\s+["“](.+?)["”]` (case-insensitive `aka`) at the
head of `cs`. -/
def akaTryMatch (cs : List Char) : Option (String × List Char) :=
  match cs with
  | a :: k :: a2 :: rest =>
    if a.toLower = 'a' ∧ k.toLower = 'k' ∧ a2.toLower = 'a' then
      let ws := rest.takeWhile Char.isWhitespace
      if ws = [] then none
      else
        match rest.drop ws.length with
        | q :: body =>
          if akaOpenQuote q then
            let inner := body.takeWhile (fun c => !akaCloseQuote c)
            match body.drop inner.length with
            | q2 :: tail =>
              if akaCloseQuote q2 ∧ inner ≠ [] ∧ inner.all (fun c => c ≠ '\n')
              then some (String.mk inner, tail) else none
            | [] => none
          else none
        | [] => none
    else none
  | _ => none

/-- `re.finditer` for the alias pattern: all matches, left to right. -/
def akaScan : Nat → List Char → List String
  | 0, _ => []
  | _ + 1, [] => []
  | fuel + 1, c :: rest =>
    match akaTryMatch (c :: rest) with
    | some (al, rest2) => al :: akaScan fuel rest2
    | none => akaScan fuel rest

/-- All `aka "X"` aliases found inside one collected name, stripped
(line 281-284). -/
def akaAliases (n : String) : List String :=
  ((akaScan (n.data.length + 1) n.data).map pyStrip).filter (fun a => a ≠ "")

/-- A `people/*.md` file: its filename stem, and its contents (`none`
models a file whose `read_text()` raises). -/
structure PFile where
  stem : String
  content : Option String
deriving DecidableEq

/-- The record `parse_people_file` produces. -/
structure PeopleRec where
  slug : String
  names : Finset String
  emails : Finset String
  phones : Finset String
  lastUpdated : Option PyDateTime

/-- `parse_people_file` (lines 250-298): the unreadable branch returns
an empty record that still carries the filename-derived slug; the
readable branch collects title/field names, their quoted aliases, and
free-text emails/phones. -/
def parse_people_file (f : PFile) : PeopleRec :=
  match f.content with
  | none => ⟨pyLower f.stem, ∅, ∅, ∅, none⟩
  | some text =>
    let lines := pyLines text
    let titleNames : List String :=
      match lines.filterMap titleOfLine with
      | [] => []
      | t :: _ => [t]
    let base := titleNames ++ lines.filterMap nameFieldOfLine
    let names := (base ++ base.flatMap akaAliases).toFinset
    ⟨pyLower f.stem, names, (extract_emails text).toFinset,
     (extract_phones text).toFinset, parse_last_updated_date text⟩

/-- One iteration of the `load_people_index` loop (lines 312-320). -/
def peopleStep (acc : Finset String × Finset String × Finset String × Finset String)
    (f : PFile) : Finset String × Finset String × Finset String × Finset String :=
  let r := parse_people_file f
  (insert r.slug acc.1, acc.2.1 ∪ r.names.image slugify,
   acc.2.2.1 ∪ r.emails, acc.2.2.2 ∪ r.phones)

/-- `load_people_index` (lines 301-322) over the directory's files:
the four aggregate lookup sets (slugs, slugified names, emails,
phones). -/
def load_people_index (files : List PFile) :
    Finset String × Finset String × Finset String × Finset String :=
  files.foldl peopleStep (∅, ∅, ∅, ∅)

/-! ## The candidate resolver
(`generate_new_people_candidates_report`, lines 364-447) -/

/-- `re.split(r'\s+', name)` with empty parts removed. -/
def wordsRec : List Char → List Char → List String
  | [], acc => if acc = [] then [] else [String.mk acc.reverse]
  | c :: rest, acc =>
    if c.isWhitespace then
      if acc = [] then wordsRec rest []
      else String.mk acc.reverse :: wordsRec rest []
    else wordsRec rest (c :: acc)

/-- The whitespace-separated words of a name. -/
def pyWords (s : String) : List String := wordsRec s.data []

/-- Accumulator of the per-contact loop: the two candidate lists being
built and the `seen_unknown_numbers` set. -/
structure RAcc where
  named : List Contact
  unknown : List Contact
  seen : Finset String
deriving DecidableEq

/-- The initial accumulator. -/
def emptyRAcc : RAcc := ⟨[], [], ∅⟩

/-- Lines 380-383: the Contact-Directory resolution attempted when the
stripped name is phone-shaped or empty (`""` when not attempted or
failed). -/
def resolvedName (cmap : ContactsMap) (c : Contact) : String :=
  if is_phone_number (pyStrip c.name) || pyStrip c.name = "" then
    resolve_phone_to_name (pyStrip c.identifier) cmap
  else ""

/-- The loop's local `name` after the resolution step. -/
def candName (cmap : ContactsMap) (c : Contact) : String :=
  if resolvedName cmap c ≠ "" then resolvedName cmap c else pyStrip c.name

/-- The contact after the resolution step (line 384 stores the
resolved name back into the contact). -/
def candContact (cmap : ContactsMap) (c : Contact) : Contact :=
  if resolvedName cmap c ≠ "" then { c with resolved_name := some (resolvedName cmap c) }
  else c

/-- Lines 393: the normalized identifier when it is email-shaped,
otherwise `""`. -/
def identEmailOf (c : Contact) : String :=
  if strContainsChar (pyStrip c.identifier) '@' then normalize_email (pyStrip c.identifier)
  else ""

/-- Lines 398: the phone token used for the People-File phone check. -/
def normPhoneOf (cmap : ContactsMap) (c : Contact) : String :=
  if pyStartsWith (pyStrip c.identifier) "+" then normalize_phone (pyStrip c.identifier)
  else if pyStartsWith (candName cmap c) "+" then normalize_phone (candName cmap c)
  else ""

/-- The slug of "first word + last word" of a name (lines 407-409). -/
def firstLastSlug (nm : String) : String :=
  slugify ((pyWords nm).headD "" ++ " " ++ (pyWords nm).getLastD "")

/-- Line 423: the normalized phone under which an unresolved
phone-shaped contact is deduplicated. -/
def unknownNumOf (cmap : ContactsMap) (c : Contact) : String :=
  normalize_phone (if pyStartsWith (pyStrip c.identifier) "+" then pyStrip c.identifier
                   else candName cmap c)

/-- The test of lines 403/416: the name is present and neither
phone-shaped nor email-shaped. -/
def namedShape (nm : String) : Bool :=
  nm != "" && !is_phone_number nm && !strContainsChar nm '@'

/-- One iteration of the `for c in imessage_contacts` loop
(lines 375-432).  `slugs`, `names`, `emails`, `phones` are the
People-File Index aggregate sets, `cmap` the Contacts map. -/
def candStep (slugs names emails phones : Finset String) (cmap : ContactsMap)
    (acc : RAcc) (c : Contact) : RAcc :=
  if IMESSAGE_EXCLUDE_NAMES.contains (pyLower (candName cmap c)) then acc
  else if is_likely_system_imessage_contact (candContact cmap c) then acc
  -- lines 393-395: iMessage-via-email identifier already known
  else if identEmailOf c != "" && decide (identEmailOf c ∈ emails) then acc
  -- lines 398-399: phone match against existing people
  else if normPhoneOf cmap c != "" && decide (normPhoneOf cmap c ∈ phones) then acc
  -- lines 403-411: name/slug match (with first-last fallback)
  else if namedShape (candName cmap c) &&
          (decide (slugify (candName cmap c) ∈ slugs) ||
           decide (slugify (candName cmap c) ∈ names)) then acc
  else if namedShape (candName cmap c) && decide (2 ≤ (pyWords (candName cmap c)).length) &&
          (decide (firstLastSlug (candName cmap c) ∈ slugs) ||
           decide (firstLastSlug (candName cmap c) ∈ names)) then acc
  -- lines 413-414: email-shaped name already known
  else if strContainsChar (candName cmap c) '@' &&
          decide (normalize_email (candName cmap c) ∈ emails) then acc
  -- lines 416-432: file the contact
  else if namedShape (candName cmap c) then
    { acc with named := acc.named ++ [candContact cmap c] }
  else if strContainsChar (pyStrip c.identifier) '@' &&
          !decide (normalize_email (pyStrip c.identifier) ∈ emails) then
    { acc with named := acc.named ++ [candContact cmap c] }
  else if pyStartsWith (pyStrip c.identifier) "+" || is_phone_number (candName cmap c) then
    if unknownNumOf cmap c != "" && !decide (unknownNumOf cmap c ∈ acc.seen) then
      if resolve_phone_to_name (pyStrip c.identifier) cmap != "" then
        { acc with named := acc.named ++
            [{ candContact cmap c with
               resolved_name := some (resolve_phone_to_name (pyStrip c.identifier) cmap) }] }
      else
        { acc with unknown := acc.unknown ++ [candContact cmap c],
                   seen := insert (unknownNumOf cmap c) acc.seen }
    else acc
  else acc

/-- The descending comparison used by
`sort(key=sort_key, reverse=True)`: `a` may precede `b` iff
`sortKey b ≤ sortKey a`. -/
def contactGE (a b : Contact) : Prop := sortKey b ≤ sortKey a

instance : DecidableRel contactGE := fun _ _ => Nat.decLe _ _

instance : IsTotal Contact contactGE := ⟨fun a b => Nat.le_total (sortKey b) (sortKey a)⟩

instance : IsTrans Contact contactGE := ⟨fun _ _ _ h1 h2 => Nat.le_trans h2 h1⟩

/-- Python's `list.sort(key=sort_key, reverse=True)`: a stable sort
putting larger keys first.  Python's sort is stable, so any stable
sorting algorithm with this comparison computes the same list; we use
insertion sort. -/
def pySortDesc (l : List Contact) : List Contact :=
  List.insertionSort contactGE l

/-- The classification part of `generate_new_people_candidates_report`:
the sorted named-candidate and unknown-number-candidate lists. -/
def gen_core (slugs names emails phones : Finset String) (cmap : ContactsMap)
    (cs : List Contact) : List Contact × List Contact :=
  let acc := cs.foldl (candStep slugs names emails phones cmap) emptyRAcc
  (pySortDesc acc.named, pySortDesc acc.unknown)

/-- The normalized phone token under which an unknown-number candidate
is deduplicated (line 423). -/
def unknownTok (c : Contact) : String :=
  let ident := pyStrip c.identifier
  normalize_phone (if pyStartsWith ident "+" then ident else pyStrip c.name)

/-- Loop invariant for unknown-number deduplication: the tokens of the
unknown-number list are pairwise distinct, and all of them have been
recorded in `seen_unknown_numbers`. -/
def UnknownInv (acc : RAcc) : Prop :=
  ((acc.unknown.map unknownTok).Nodup) ∧
  ∀ t ∈ acc.unknown.map unknownTok, t ∈ acc.seen

/-! ## Report rendering (lines 440-477) -/

/-- Python's `a or b` on strings. -/
def pyOrStr (a b : String) : String := if a ≠ "" then a else b

/-- `c.get('resolved_name') or c.get('name') or c.get('identifier')`. -/
def displayNameOf (c : Contact) : String :=
  pyOrStr (c.resolved_name.getD "") (pyOrStr c.name c.identifier)

/-- Python `l[-n:]`. -/
def lastN (n : Nat) (l : List Msg) : List Msg := l.drop (l.length - n)

/-- One preview bullet (lines 460 and 473). -/
def renderPreviewLine (m : Msg) : String :=
  "    - [" ++ m.date ++ "] " ++ m.sender ++ ": " ++ m.preview ++ "\n"

/-- One named-candidate entry (lines 451-460). -/
def renderNamedEntry (c : Contact) : String :=
  "- **" ++ displayNameOf c ++ "**\n" ++
  (if c.identifier ≠ "" then "  - Phone/ID: " ++ c.identifier ++ "\n" else "") ++
  "  - Last message: " ++ c.last_msg ++ "\n" ++
  (if c.recent ≠ [] then
    "  - Recent previews:\n" ++ String.join ((lastN 3 c.recent).map renderPreviewLine)
   else "")

/-- One unknown-number entry (lines 466-473). -/
def renderUnknownEntry (c : Contact) : String :=
  "- **" ++ pyOrStr c.identifier c.name ++ "**\n" ++
  "  - Last message: " ++ c.last_msg ++ "\n" ++
  (if c.recent ≠ [] then
    "  - Recent previews:\n" ++ String.join ((lastN 2 c.recent).map renderPreviewLine)
   else "")

/-- Everything the report writes after the `*Generated: ...*` line
(lines 443-477), as a function of the classification inputs only. -/
def report_body (slugs names emails phones : Finset String) (cmap : ContactsMap)
    (cs : List Contact) : String :=
  let named := (gen_core slugs names emails phones cmap cs).1
  let unknown := (gen_core slugs names emails phones cmap cs).2
  "This report is a best-effort diff of iMessage contacts against `people/*.md`.\n\n" ++
  "## 📊 Summary\n\n" ++
  "- **Named candidates:** " ++ toString named.length ++ "\n" ++
  "- **Unknown-number candidates:** " ++ toString unknown.length ++ "\n\n" ++
  (if named ≠ [] then
    "## ✅ Named candidates (recommended)\n\n" ++
    String.join (named.map renderNamedEntry) ++ "\n"
   else "") ++
  (if unknown ≠ [] then
    "## 🤷 Unknown-number candidates (manual triage)\n\n" ++
    "*These phone numbers could not be resolved to a contact name.*\n\n" ++
    String.join ((unknown.take 50).map renderUnknownEntry) ++
    (if 50 < unknown.length then
      "\n*...and " ++ toString (unknown.length - 50) ++ " more unknown-number candidates*\n"
     else "") ++ "\n"
   else "")

/-- The full text written by `generate_new_people_candidates_report`
(lines 440-477); `now` is the formatted `datetime.now()` stamp of
line 442. -/
def generate_new_people_candidates_report (slugs names emails phones : Finset String)
    (cmap : ContactsMap) (cs : List Contact) (now : String) : String :=
  let named := (gen_core slugs names emails phones cmap cs).1
  let unknown := (gen_core slugs names emails phones cmap cs).2
  "# New People Candidates (from iMessages)\n" ++
  "*Generated: " ++ now ++ "*\n\n" ++
  "This report is a best-effort diff of iMessage contacts against `people/*.md`.\n\n" ++
  "## 📊 Summary\n\n" ++
  "- **Named candidates:** " ++ toString named.length ++ "\n" ++
  "- **Unknown-number candidates:** " ++ toString unknown.length ++ "\n\n" ++
  (if named ≠ [] then
    "## ✅ Named candidates (recommended)\n\n" ++
    String.join (named.map renderNamedEntry) ++ "\n"
   else "") ++
  (if unknown ≠ [] then
    "## 🤷 Unknown-number candidates (manual triage)\n\n" ++
    "*These phone numbers could not be resolved to a contact name.*\n\n" ++
    String.join ((unknown.take 50).map renderUnknownEntry) ++
    (if 50 < unknown.length then
      "\n*...and " ++ toString (unknown.length - 50) ++ " more unknown-number candidates*\n"
     else "") ++ "\n"
   else "")

end PDS

-- quick smoke checks (removed later if needed; examples are fine to keep)
example : PDS.normalize_phone "+1 (415) 555-1234" = "+14155551234" := by decide
example : PDS.normalize_phone " +1415" = "+1415" := by decide
example : PDS.normalize_phone "abc" = "" := by decide
example : PDS.is_phone_number "+1 (415) 555-1234" = true := by decide
example : PDS.is_phone_number "mom" = false := by decide
example : PDS.slugify "John  Smith Jr." = "john-smith-jr" := by decide
example : PDS.slugify "--Bob--" = "bob" := by decide
example : PDS.resolve_phone_to_name "4155551234"
    (PDS.registerPhone "+14155551234" "Alice" PDS.emptyMap) = "" := by decide
example : PDS.resolve_phone_to_name "+1-415-555-1234"
    (PDS.registerPhone "+1 (415) 555-1234" "Alice" PDS.emptyMap) = "Alice" := by decide
example : PDS.parse_dt_maybe "2025-12-10 13:05:59" =
    some ⟨2025, 12, 10, 13, 5, 59⟩ := by decide
example : PDS.parse_dt_maybe "2025-12-10 13:05" = some ⟨2025, 12, 10, 13, 5, 0⟩ := by decide
example : PDS.parse_dt_maybe "  2025-2-3  " = some ⟨2025, 2, 3, 0, 0, 0⟩ := by decide
example : PDS.parse_dt_maybe "2025-02-30" = none := by decide
example : PDS.parse_dt_maybe "2024-02-29" = some ⟨2024, 2, 29, 0, 0, 0⟩ := by decide
example : PDS.parse_dt_maybe "" = none := by decide
example : PDS.parse_dt_maybe "not a date" = none := by decide
example : PDS.parse_dt_maybe "2025-12-10 13:05:59.123" = some ⟨2025, 12, 10, 13, 5, 59⟩ := by
  decide
example : PDS.isShortCode "12345" = true := by decide
example : PDS.isShortCode "1234567" = false := by decide
example : PDS.is_likely_system_imessage_contact
    ⟨"Bob", "12345", "", [], none⟩ = false := by decide
example : PDS.is_likely_system_imessage_contact
    ⟨"", "12345", "", [], none⟩ = true := by decide
example : PDS.is_likely_system_imessage_contact
    ⟨"Acme", "+15551234567", "", [⟨"Acme", "2025-01-01", "Your Verification Code is 1"⟩],
     none⟩ = true := by decide
example : PDS.extract_phones "call +1 (415) 555-1234 now" = ["+14155551234"] := by decide
example : PDS.extract_phones "+1234567890 and +1234567890" = ["+1234567890"] := by decide
example : PDS.extract_phones "no plus 4155551234" = [] := by decide
example : PDS.extract_emails "mail Bob.Jones@Example.COM today" = ["bob.jones@example.com"] := by
  decide
example : PDS.akaAliases "Robert (aka \"Bob\") Smith" = ["Bob"] := by decide
example : PDS.titleOfLine "#  John Smith  " = some "John Smith" := by decide
example : PDS.titleOfLine "## John" = none := by decide
example : PDS.nameFieldOfLine " - **Name:** J. Smith " = some "J. Smith" := by decide
example : PDS.lastUpdatedFieldOfLine "- **Last Updated:** 2025-12-10" =
    some "2025-12-10" := by decide
example :
    (PDS.parse_people_file ⟨"john-smith",
      some "# John Smith\n- **Name:** Johnny (aka \"JJ\")\n+1 415 555 1234 x\n"⟩).phones =
    {"+14155551234"} := by decide
example :
    (PDS.parse_people_file ⟨"John-Smith", none⟩).slug = "john-smith" := by decide
example :
    PDS.parse_last_updated_date "## Last Updated\n2025-12-10\n" =
    some ⟨2025, 12, 10, 0, 0, 0⟩ := by decide
-- a plain named contact becomes a named candidate
example :
    PDS.gen_core ∅ ∅ ∅ ∅ PDS.emptyMap [⟨"Bob", "12345", "", [], none⟩] =
    ([⟨"Bob", "12345", "", [], none⟩], []) := by decide
-- an empty-named contact whose identifier is a bare 10-digit number vanishes
example :
    PDS.gen_core ∅ ∅ ∅ {"+14155551234"} PDS.emptyMap
      [⟨"", "4155551234", "", [], none⟩] = ([], []) := by decide
-- two formattings of one unknown number yield one unknown candidate
example :
    ((PDS.gen_core ∅ ∅ ∅ ∅ PDS.emptyMap
      [⟨"", "+19998887777", "", [], none⟩,
       ⟨"", "+1 (999) 888-7777", "", [], none⟩]).2).length = 1 := by decide
-- a "mom" contact is dropped
example :
    PDS.gen_core ∅ ∅ ∅ ∅ PDS.emptyMap [⟨" Mom ", "+15551234567", "", [], none⟩] =
    ([], []) := by decide
-- sorting is by last-message timestamp, descending
example :
    PDS.gen_core ∅ ∅ ∅ ∅ PDS.emptyMap
      [⟨"Bob", "", "2025-01-01", [], none⟩, ⟨"Eve", "", "2025-06-01 10:00", [], none⟩] =
    ([⟨"Eve", "", "2025-06-01 10:00", [], none⟩, ⟨"Bob", "", "2025-01-01", [], none⟩],
     []) := by decide

namespace PDS

/-! ## Helper lemmas -/

theorem string_data_inj : ∀ {s t : String}, s.data = t.data → s = t
  | ⟨_⟩, ⟨_⟩, rfl => rfl

theorem ws_not_digit (c : Char) (h : c.isWhitespace = true) : c.isDigit = false := by
  simp only [Char.isWhitespace, Bool.or_eq_true, decide_eq_true_eq] at h
  rcases h with ((h | h) | h) | h <;> subst h <;> decide

theorem filter_dropWhile_of_imp (p q : Char → Bool)
    (hpq : ∀ c, q c = true → p c = false) (l : List Char) :
    (l.dropWhile q).filter p = l.filter p := by
  conv_rhs => rw [← List.takeWhile_append_dropWhile (p := q) (l := l)]
  rw [List.filter_append]
  have h0 : (l.takeWhile q).filter p = [] :=
    List.filter_eq_nil_iff.mpr (fun a ha => by
      simp [hpq a (List.mem_takeWhile_imp ha)])
  simp [h0]

theorem filter_pyStripList (p : Char → Bool)
    (hp : ∀ c, c.isWhitespace = true → p c = false) (l : List Char) :
    (pyStripList l).filter p = l.filter p := by
  unfold pyStripList
  rw [List.filter_reverse, filter_dropWhile_of_imp p _ hp, List.filter_reverse,
      List.reverse_reverse, filter_dropWhile_of_imp p _ hp]

theorem toNat_ofNat_valid {m : Nat} (h : m.isValidChar) : (Char.ofNat m).toNat = m := by
  rw [Char.ofNat, dif_pos h]
  rfl

theorem isDigit_toNat (c : Char) (h : c.isDigit = true) : 48 ≤ c.toNat ∧ c.toNat ≤ 57 := by
  simp only [Char.isDigit, Bool.and_eq_true, decide_eq_true_eq] at h
  exact ⟨UInt32.le_toNat_of_le (by decide) h.1, UInt32.toNat_le_of_le (by decide) h.2⟩

theorem toNat_of_toLower (c w : Char) (h : c.toLower = w) :
    c = w ∨ (65 ≤ c.toNat ∧ c.toNat ≤ 90 ∧ c.toNat + 32 = w.toNat) := by
  unfold Char.toLower at h
  have h2 : (if c.toNat ≥ 65 ∧ c.toNat ≤ 90 then Char.ofNat (c.toNat + 32) else c) = w := h
  clear h
  split at h2
  · rename_i hcond
    right
    refine ⟨hcond.1, hcond.2, ?_⟩
    have hv : (c.toNat + 32).isValidChar := by
      left
      omega
    calc c.toNat + 32 = (Char.ofNat (c.toNat + 32)).toNat := (toNat_ofNat_valid hv).symm
    _ = w.toNat := by rw [h2]
  · left
    exact h2

theorem punct_toNat (c : Char) (h : isPhonePunct c = true) :
    c.toNat = 43 ∨ c.toNat = 40 ∨ c.toNat = 41 ∨ c.toNat = 32 ∨ c.toNat = 45 := by
  simp only [isPhonePunct, Bool.or_eq_true, decide_eq_true_eq] at h
  rcases h with ((((h | h) | h) | h) | h) <;> subst h <;> decide

/-- A character whose `toLower` image is a lowercase letter is neither
a digit nor one of the phone-punctuation characters. -/
theorem no_digit_no_punct (c w : Char) (hw1 : 97 ≤ w.toNat) (hw2 : w.toNat ≤ 122)
    (h : c.toLower = w) : c.isDigit = false ∧ isPhonePunct c = false := by
  rcases toNat_of_toLower c w h with rfl | ⟨h1, h2, h3⟩
  · constructor
    · by_contra hd
      have := isDigit_toNat c (by revert hd; cases c.isDigit <;> simp)
      omega
    · by_contra hp
      have := punct_toNat c (by revert hp; cases isPhonePunct c <;> simp)
      omega
  · constructor
    · by_contra hd
      have := isDigit_toNat c (by revert hd; cases c.isDigit <;> simp)
      omega
    · by_contra hp
      have := punct_toNat c (by revert hp; cases isPhonePunct c <;> simp)
      omega

/-- A string whose lowercasing is a word starting with a lowercase
letter is nonempty and is not phone-number-shaped. -/
theorem not_phone_of_lower_eq (s w : String) (w0 : Char) (t : List Char)
    (hwd : w.data = w0 :: t) (hw1 : 97 ≤ w0.toNat) (hw2 : w0.toNat ≤ 122)
    (h : pyLower s = w) : s ≠ "" ∧ is_phone_number s = false := by
  have hls : s.data.map Char.toLower = w.data := congrArg String.data h
  rw [hwd] at hls
  have hne : s.data ≠ [] := by
    intro hnil
    rw [hnil] at hls
    exact List.noConfusion hls
  obtain ⟨c, rest, hsd⟩ : ∃ c rest, s.data = c :: rest := by
    cases hsd : s.data with
    | nil => exact absurd hsd hne
    | cons c rest => exact ⟨c, rest, rfl⟩
  rw [hsd] at hls
  simp only [List.map_cons, List.cons.injEq] at hls
  have hnd := no_digit_no_punct c w0 hw1 hw2 hls.1
  have hsne : s ≠ "" := by
    intro he
    apply hne
    rw [he]
  refine ⟨hsne, ?_⟩
  have hcmem : c ∈ s.data.filter (fun x => !isPhonePunct x) :=
    List.mem_filter.mpr ⟨by rw [hsd]; exact List.mem_cons_self c rest, by simp [hnd.2]⟩
  have hall : (s.data.filter (fun x => !isPhonePunct x)).all Char.isDigit = false := by
    by_contra hb
    have hb2 : (s.data.filter (fun x => !isPhonePunct x)).all Char.isDigit = true := by
      revert hb
      cases (s.data.filter (fun x => !isPhonePunct x)).all Char.isDigit <;> simp
    exact absurd (List.all_eq_true.mp hb2 c hcmem) (by simp [hnd.1])
  simp only [is_phone_number, if_neg hsne, hall]
  simp

/-- Strings whose lowercasing is in the exclusion list are nonempty
and not phone-shaped, so the resolver never overwrites them before the
exclusion check. -/
theorem exclude_props (s : String) (h : pyLower s ∈ IMESSAGE_EXCLUDE_NAMES) :
    s ≠ "" ∧ is_phone_number s = false := by
  simp only [IMESSAGE_EXCLUDE_NAMES, List.mem_cons, List.mem_singleton,
    List.not_mem_nil, or_false] at h
  rcases h with h | h | h | h | h | h | h
  · exact not_phone_of_lower_eq s _ 'd' ['a', 'd'] (by decide) (by decide) (by decide) h
  · exact not_phone_of_lower_eq s _ 'm' ['o', 'm'] (by decide) (by decide) (by decide) h
  · exact not_phone_of_lower_eq s _ 'm' ['u', 'm'] (by decide) (by decide) (by decide) h
  · exact not_phone_of_lower_eq s _ 'm' ['o', 't', 'h', 'e', 'r'] (by decide) (by decide)
      (by decide) h
  · exact not_phone_of_lower_eq s _ 'f' ['a', 't', 'h', 'e', 'r'] (by decide) (by decide)
      (by decide) h
  · exact not_phone_of_lower_eq s _ 'g' ['r', 'a', 'n', 'd', 'm', 'a'] (by decide) (by decide)
      (by decide) h
  · exact not_phone_of_lower_eq s _ 'g' ['r', 'a', 'n', 'd', 'p', 'a'] (by decide) (by decide)
      (by decide) h

/-- An identifier that does not start with `+` is never resolved. -/
theorem resolve_no_plus (i : String) (m : ContactsMap)
    (h : pyStartsWith i "+" = false) : resolve_phone_to_name i m = "" := by
  simp [resolve_phone_to_name, h]

/-- Dropping a contact on which the loop body is the identity does not
change the report's candidate lists. -/
theorem gen_core_skip (slugs names emails phones : Finset String) (cmap : ContactsMap)
    (c : Contact) (h : ∀ acc, candStep slugs names emails phones cmap acc c = acc)
    (pre suf : List Contact) :
    gen_core slugs names emails phones cmap (pre ++ c :: suf) =
    gen_core slugs names emails phones cmap (pre ++ suf) := by
  unfold gen_core
  rw [List.foldl_append, List.foldl_append, List.foldl_cons, h]

/-- When the stripped name is neither phone-shaped nor empty, no
resolution is attempted. -/
theorem resolvedName_not_attempted (cmap : ContactsMap) (c : Contact)
    (h1 : is_phone_number (pyStrip c.name) = false) (h2 : pyStrip c.name ≠ "") :
    resolvedName cmap c = "" := by
  simp [resolvedName, h1, h2]

/-- When no resolution happens the loop's `name` is the stripped
contact name. -/
theorem candName_not_resolved (cmap : ContactsMap) (c : Contact)
    (h : resolvedName cmap c = "") : candName cmap c = pyStrip c.name := by
  simp [candName, h]

/-- When no resolution happens the contact is passed on unchanged. -/
theorem candContact_not_resolved (cmap : ContactsMap) (c : Contact)
    (h : resolvedName cmap c = "") : candContact cmap c = c := by
  simp [candContact, h]

/-- A contact whose stripped, lowercased name is in the exclusion list
is skipped by the loop body. -/
theorem candStep_exclude (slugs names emails phones : Finset String) (cmap : ContactsMap)
    (acc : RAcc) (c : Contact)
    (h : pyLower (pyStrip c.name) ∈ IMESSAGE_EXCLUDE_NAMES) :
    candStep slugs names emails phones cmap acc c = acc := by
  obtain ⟨hne, hipn⟩ := exclude_props _ h
  have hcn : candName cmap c = pyStrip c.name :=
    candName_not_resolved cmap c (resolvedName_not_attempted cmap c hipn hne)
  simp [candStep, hcn, h]

/-- A contact with an empty (stripped) name whose identifier contains
no `@`, does not start with `+`, is skipped entirely by the loop
body. -/
theorem candStep_discard (slugs names emails phones : Finset String) (cmap : ContactsMap)
    (acc : RAcc) (c : Contact)
    (hn : pyStrip c.name = "")
    (hat : strContainsChar (pyStrip c.identifier) '@' = false)
    (hplus : pyStartsWith (pyStrip c.identifier) "+" = false) :
    candStep slugs names emails phones cmap acc c = acc := by
  have hr : resolve_phone_to_name (pyStrip c.identifier) cmap = "" :=
    resolve_no_plus _ _ hplus
  have hr1 : resolvedName cmap c = "" := by simp [resolvedName, hn, hr]
  have hcn : candName cmap c = "" := by
    rw [candName_not_resolved cmap c hr1, hn]
  have hcc : candContact cmap c = c := candContact_not_resolved cmap c hr1
  have hmem : ¬ (("" : String) ∈ IMESSAGE_EXCLUDE_NAMES) := by decide
  have e1 : is_phone_number "" = false := rfl
  have e2 : pyLower "" = "" := rfl
  have e3 : pyStartsWith "" "+" = false := rfl
  have e4 : strContainsChar "" '@' = false := rfl
  have e5 : namedShape "" = false := rfl
  simp [candStep, hcn, hcc, hn, hat, hplus, hr, hmem, e1, e2, e3, e4, e5]

/-- A contact whose stripped identifier starts with `+` and whose
normalized identifier is a known people-file phone is skipped by the
loop body. -/
theorem candStep_phone_known (slugs names emails phones : Finset String)
    (cmap : ContactsMap) (acc : RAcc) (c : Contact)
    (hplus : pyStartsWith (pyStrip c.identifier) "+" = true)
    (hne : normalize_phone (pyStrip c.identifier) ≠ "")
    (hmem : normalize_phone (pyStrip c.identifier) ∈ phones) :
    candStep slugs names emails phones cmap acc c = acc := by
  have hnp : normPhoneOf cmap c = normalize_phone (pyStrip c.identifier) := by
    simp [normPhoneOf, hplus]
  simp [candStep, hnp, hne, hmem]

/-- The system heuristic ignores the `resolved_name` field. -/
theorem sys_resolved_irrelevant (c : Contact) (v : Option String) :
    is_likely_system_imessage_contact { c with resolved_name := v } =
    is_likely_system_imessage_contact c := by
  cases c
  rfl

/-- The system heuristic gives the same verdict on the
possibly-resolved contact. -/
theorem sys_candContact (cmap : ContactsMap) (c : Contact) :
    is_likely_system_imessage_contact (candContact cmap c) =
    is_likely_system_imessage_contact c := by
  unfold candContact
  split
  · rw [sys_resolved_irrelevant]
  · rfl

/-- A system-classified contact is skipped by the loop body. -/
theorem candStep_system (slugs names emails phones : Finset String) (cmap : ContactsMap)
    (acc : RAcc) (c : Contact)
    (hsys : is_likely_system_imessage_contact c = true) :
    candStep slugs names emails phones cmap acc c = acc := by
  simp [candStep, sys_candContact, hsys]

/-- The three conditions of the system heuristic force it to fire. -/
theorem sys_of_conditions (c : Contact)
    (h : isShortCode (if pyStrip c.name = "" then pyStrip c.identifier
                      else pyStrip c.name) = true ∨
         pyLower (pyStrip c.name) = "unknown" ∨
         pyLower (pyStrip c.name) = "identifier" ∨
         markerHit c = true) :
    is_likely_system_imessage_contact c = true := by
  rcases h with h | h | h | h <;> simp [is_likely_system_imessage_contact, h]

/-- Characterization of `normalize_phone`: the output is empty when the
input has no digits, and otherwise consists of a `+` (present iff the
whitespace-stripped input starts with `+`) followed by all digit
characters of the input, in order. -/
theorem normalize_phone_spec (raw : String) :
    normalize_phone raw =
      if raw.data.filter Char.isDigit = [] then ""
      else (if pyStartsWith (pyStrip raw) "+" then "+" else "") ++
           String.mk (raw.data.filter Char.isDigit) := by
  by_cases h : raw = ""
  · subst h; decide
  · have hd : (pyStrip raw).data.filter Char.isDigit = raw.data.filter Char.isDigit := by
      simpa [pyStrip] using filter_pyStripList Char.isDigit ws_not_digit raw.data
    simp only [normalize_phone, if_neg h, hd, List.isEmpty_eq_true]

end PDS

/-- C7: `normalize_phone(raw)` is claimed to equal an optional leading
`+` — present iff the input starts with `+` — followed by the digit
characters of `raw`.  Counterexample: the input `" +1415"` does not
start with `+` (it starts with a space), so the claim predicts the
plus-less digit string `"1415"`, but the code strips whitespace before
testing for `+` and returns `"+1415"`. -/
theorem C7_counterexample :
    PDS.pyStartsWith " +1415" "+" = false ∧
    PDS.normalize_phone " +1415" ≠
      String.mk ((" +1415" : String).data.filter Char.isDigit) := by decide

/-- C7 (amended): `normalize_phone(raw)` equals a single leading `+` —
present iff the input, after stripping surrounding whitespace, starts
with `+` — concatenated with all digit characters of `raw` in order,
and is empty when `raw` has no digits; consequently any two raw
strings with the same digit sequence whose stripped forms agree on the
leading `+` normalize to the same token. -/
theorem C7_amended :
    (∀ raw, PDS.normalize_phone raw =
      if raw.data.filter Char.isDigit = [] then ""
      else (if PDS.pyStartsWith (PDS.pyStrip raw) "+" then "+" else "") ++
           String.mk (raw.data.filter Char.isDigit)) ∧
    (∀ r1 r2, r1.data.filter Char.isDigit = r2.data.filter Char.isDigit →
      PDS.pyStartsWith (PDS.pyStrip r1) "+" = PDS.pyStartsWith (PDS.pyStrip r2) "+" →
      PDS.normalize_phone r1 = PDS.normalize_phone r2) := by
  refine ⟨PDS.normalize_phone_spec, fun r1 r2 h1 h2 => ?_⟩
  rw [PDS.normalize_phone_spec, PDS.normalize_phone_spec, h1, h2]

/-- C7 witness: two formattings of the same number normalize to the
same token. -/
theorem C7_witness :
    PDS.normalize_phone "+1 (415) 555-1234" = PDS.normalize_phone "+14155551234" :=
  C7_amended.2 "+1 (415) 555-1234" "+14155551234" (by decide) (by decide)

/-- C3: a contact whose name — stripped of surrounding whitespace and
lowercased — is in the static exclusion list `IMESSAGE_EXCLUDE_NAMES`
appears in neither candidate list of
`generate_new_people_candidates_report`, for every state of the
Contact Directory and People-File Index: removing such a contact from
the input does not change the report's two output lists at all. -/
theorem C3_excluded_names (slugs names emails phones : Finset String)
    (cmap : PDS.ContactsMap) (c : PDS.Contact) (pre suf : List PDS.Contact)
    (h : PDS.pyLower (PDS.pyStrip c.name) ∈ PDS.IMESSAGE_EXCLUDE_NAMES) :
    PDS.gen_core slugs names emails phones cmap (pre ++ c :: suf) =
    PDS.gen_core slugs names emails phones cmap (pre ++ suf) :=
  PDS.gen_core_skip slugs names emails phones cmap c
    (fun acc => PDS.candStep_exclude slugs names emails phones cmap acc c h) pre suf

/-- C3 witness: a `" Mom "` contact is dropped from the report. -/
theorem C3_witness :
    PDS.gen_core ∅ ∅ ∅ ∅ PDS.emptyMap
      ([] ++ (⟨" Mom ", "+15551234567", "", [], none⟩ : PDS.Contact) :: []) =
    PDS.gen_core ∅ ∅ ∅ ∅ PDS.emptyMap ([] ++ []) :=
  C3_excluded_names ∅ ∅ ∅ ∅ PDS.emptyMap ⟨" Mom ", "+15551234567", "", [], none⟩ [] []
    (by decide)

/-- C10: a contact with an empty (stripped) name whose identifier
contains no `@`, does not start with `+`, and is not phone-shaped per
`is_phone_number`, is silently discarded by
`generate_new_people_candidates_report`: removing it from the input
changes neither output list.  (Such an identifier is also never
resolvable via the Contact Directory, because `resolve_phone_to_name`
requires a leading `+`.) -/
theorem C10_silent_discard (slugs names emails phones : Finset String)
    (cmap : PDS.ContactsMap) (c : PDS.Contact) (pre suf : List PDS.Contact)
    (hn : PDS.pyStrip c.name = "")
    (hat : PDS.strContainsChar (PDS.pyStrip c.identifier) '@' = false)
    (hplus : PDS.pyStartsWith (PDS.pyStrip c.identifier) "+" = false)
    (hipn : PDS.is_phone_number (PDS.pyStrip c.identifier) = false) :
    PDS.gen_core slugs names emails phones cmap (pre ++ c :: suf) =
    PDS.gen_core slugs names emails phones cmap (pre ++ suf) :=
  PDS.gen_core_skip slugs names emails phones cmap c
    (fun acc => PDS.candStep_discard slugs names emails phones cmap acc c hn hat hplus)
    pre suf

/-- C10 witness: an empty-named contact with an opaque handle
identifier is dropped from the report. -/
theorem C10_witness :
    PDS.gen_core ∅ ∅ ∅ ∅ PDS.emptyMap
      ([] ++ (⟨"", "bizhandle123", "2025-01-01", [], none⟩ : PDS.Contact) :: []) =
    PDS.gen_core ∅ ∅ ∅ ∅ PDS.emptyMap ([] ++ []) :=
  C10_silent_discard ∅ ∅ ∅ ∅ PDS.emptyMap ⟨"", "bizhandle123", "2025-01-01", [], none⟩ [] []
    (by decide) (by decide) (by decide) (by decide)

/-- C4: the claim says a contact is dropped when "its name or its
identifier" is a 4-6 digit short code (among other conditions).
Counterexample: the code tests `name or identifier`, so a contact with
the non-empty name `"Bob"` and the 5-digit identifier `"12345"` is not
classified as system noise and appears in the named-candidate list. -/
theorem C4_counterexample :
    (PDS.gen_core ∅ ∅ ∅ ∅ PDS.emptyMap
      [⟨"Bob", "12345", "", [], none⟩]).1 = [⟨"Bob", "12345", "", [], none⟩] ∧
    PDS.isShortCode "12345" = true ∧
    PDS.is_likely_system_imessage_contact ⟨"Bob", "12345", "", [], none⟩ = false := by
  decide

/-- C4 (amended): a contact is dropped entirely — it appears in
neither candidate list — if its stripped name (or, when the name is
empty, its stripped identifier) is a 4-6 digit string, or its
lowercased stripped name equals `"unknown"` or `"identifier"`, or the
concatenation of its recent message previews contains one of the
`IMESSAGE_SYSTEM_MARKERS` phrases: removing such a contact from the
input changes neither output list. -/
theorem C4_amended (slugs names emails phones : Finset String)
    (cmap : PDS.ContactsMap) (c : PDS.Contact) (pre suf : List PDS.Contact)
    (h : PDS.isShortCode (if PDS.pyStrip c.name = "" then PDS.pyStrip c.identifier
                          else PDS.pyStrip c.name) = true ∨
         PDS.pyLower (PDS.pyStrip c.name) = "unknown" ∨
         PDS.pyLower (PDS.pyStrip c.name) = "identifier" ∨
         PDS.markerHit c = true) :
    PDS.gen_core slugs names emails phones cmap (pre ++ c :: suf) =
    PDS.gen_core slugs names emails phones cmap (pre ++ suf) :=
  PDS.gen_core_skip slugs names emails phones cmap c
    (fun acc => PDS.candStep_system slugs names emails phones cmap acc c
      (PDS.sys_of_conditions c h)) pre suf

/-- C4 witness: a contact whose only preview carries a
verification-code marker is dropped from the report. -/
theorem C4_witness :
    PDS.gen_core ∅ ∅ ∅ ∅ PDS.emptyMap
      ([] ++ (⟨"Acme", "+15551234567", "",
        [⟨"Acme", "2025-01-01", "Your verification code is 123"⟩], none⟩ : PDS.Contact)
        :: []) =
    PDS.gen_core ∅ ∅ ∅ ∅ PDS.emptyMap ([] ++ []) :=
  C4_amended ∅ ∅ ∅ ∅ PDS.emptyMap
    ⟨"Acme", "+15551234567", "", [⟨"Acme", "2025-01-01", "Your verification code is 123"⟩],
      none⟩ [] [] (Or.inr (Or.inr (Or.inr (by decide))))

/-- C1: the claim says a stored number and an observed identifier that
differ only in formatting punctuation — including the presence or
absence of a leading `+` — are matched.  Counterexample: the Contact
Directory stores `"+14155551234" ↦ "Alice"` (with its plus-less and
punctuation-stripped variants), and the observed identifier
`"14155551234"` differs from the stored number only in the missing
leading `+`, yet `resolve_phone_to_name` returns `""` (not
`"Alice"`), because it refuses any identifier that does not start
with `+`. -/
theorem C1_counterexample :
    PDS.resolve_phone_to_name "14155551234"
      (PDS.registerPhone "+14155551234" "Alice" PDS.emptyMap) = "" ∧
    (PDS.registerPhone "+14155551234" "Alice" PDS.emptyMap) "+14155551234" =
      some "Alice" ∧
    (PDS.registerPhone "+14155551234" "Alice" PDS.emptyMap) "14155551234" =
      some "Alice" := by decide

/-- C1 (amended): formatting-insensitive phone matching holds only for
observed identifiers that start with `+`:
(1) for an identifier starting with `+` whose punctuation-stripped
form equals that of a stored phone, `resolve_phone_to_name` returns
the stored display name;
(2) a contact whose stripped identifier starts with `+` and normalizes
to a phone in the People-File phone set is classified as known
(removed from the report's inputs without changing either output
list);
(3) an identifier lacking the leading `+` (such as `"4155551234"`
against stored `"+14155551234"`) is not matched by the phone check,
but the particular contact still appears in neither candidate list,
because it is silently discarded. -/
theorem C1_amended :
    (∀ phone nm ident, phone ≠ "" → nm ≠ "" → nm ≠ "Unknown" →
      PDS.pyStartsWith ident "+" = true →
      PDS.stripPunct ident = PDS.stripPunct phone →
      PDS.resolve_phone_to_name ident (PDS.registerPhone phone nm PDS.emptyMap) = nm) ∧
    (∀ (slugs names emails phones : Finset String) (cmap : PDS.ContactsMap)
      (c : PDS.Contact) (pre suf : List PDS.Contact),
      PDS.pyStartsWith (PDS.pyStrip c.identifier) "+" = true →
      PDS.normalize_phone (PDS.pyStrip c.identifier) ≠ "" →
      PDS.normalize_phone (PDS.pyStrip c.identifier) ∈ phones →
      PDS.gen_core slugs names emails phones cmap (pre ++ c :: suf) =
      PDS.gen_core slugs names emails phones cmap (pre ++ suf)) ∧
    PDS.gen_core ∅ ∅ ∅ {"+14155551234"} PDS.emptyMap
      [⟨"", "4155551234", "", [], none⟩] = ([], []) := by
  refine ⟨?_, ?_, by decide⟩
  · intro phone nm ident h1 h2 h3 h4 h5
    have hine : ident ≠ "" := by
      intro he
      rw [he] at h4
      exact absurd h4 (by decide)
    have hcond : ¬((ident = "" || !PDS.pyStartsWith ident "+") = true) := by
      simp [hine, h4]
    have hm : ∀ k, (PDS.registerPhone phone nm PDS.emptyMap) k = some nm ∨
        (PDS.registerPhone phone nm PDS.emptyMap) k = none := by
      intro k
      unfold PDS.registerPhone
      rw [if_pos ⟨h1, h2, h3⟩]
      by_cases hk : k = phone ∨ (PDS.pyStartsWith phone "+" = true ∧
          k = PDS.strDropChars phone 1) ∨ k = PDS.stripPunct phone
      · left
        simp [hk]
      · right
        simp only [if_neg hk]
        rfl
    have hm3 : (PDS.registerPhone phone nm PDS.emptyMap) (PDS.stripPunct ident) =
        some nm := by
      unfold PDS.registerPhone
      rw [if_pos ⟨h1, h2, h3⟩, if_pos (Or.inr (Or.inr h5))]
    unfold PDS.resolve_phone_to_name
    rw [if_neg hcond]
    rcases hm ident with h | h <;> rw [h]
    rcases hm (PDS.strDropChars ident 1) with h' | h' <;> rw [h']
    rw [hm3]
  · intro slugs names emails phones cmap c pre suf hplus hne hmem
    exact PDS.gen_core_skip slugs names emails phones cmap c
      (fun acc => PDS.candStep_phone_known slugs names emails phones cmap acc c
        hplus hne hmem) pre suf

/-- C1 witness: a `+`-prefixed identifier matches a differently
formatted stored phone, and a `+`-prefixed identifier known to the
People-File phone set is excluded from the report. -/
theorem C1_witness :
    PDS.resolve_phone_to_name "+1-415-555-1234"
      (PDS.registerPhone "+1 (415) 555-1234" "Alice" PDS.emptyMap) = "Alice" ∧
    PDS.gen_core ∅ ∅ ∅ {"+14155551234"} PDS.emptyMap
      ([] ++ (⟨"", "+1 (415) 555-1234", "", [], none⟩ : PDS.Contact) :: []) =
    PDS.gen_core ∅ ∅ ∅ {"+14155551234"} PDS.emptyMap ([] ++ []) :=
  ⟨C1_amended.1 "+1 (415) 555-1234" "Alice" "+1-415-555-1234" (by decide) (by decide)
      (by decide) (by decide) (by decide),
   C1_amended.2.1 ∅ ∅ ∅ {"+14155551234"} PDS.emptyMap
      ⟨"", "+1 (415) 555-1234", "", [], none⟩ [] [] (by decide) (by decide) (by decide)⟩



namespace PDS

/-- When the second resolution fails, so does the first (they are the
same call). -/
theorem resolvedName_of_resolve_empty (cmap : ContactsMap) (c : Contact)
    (h : resolve_phone_to_name (pyStrip c.identifier) cmap = "") :
    resolvedName cmap c = "" := by
  unfold resolvedName
  rw [h, ite_self]

/-- The loop body preserves the unknown-number deduplication
invariant. -/
theorem candStep_unknown_inv (slugs names emails phones : Finset String)
    (cmap : ContactsMap) (acc : RAcc) (c : Contact) (h : UnknownInv acc) :
    UnknownInv (candStep slugs names emails phones cmap acc c) := by
  unfold candStep
  by_cases h1 : IMESSAGE_EXCLUDE_NAMES.contains (pyLower (candName cmap c)) = true
  · rw [if_pos h1]
    exact h
  rw [if_neg h1]
  by_cases h2 : is_likely_system_imessage_contact (candContact cmap c) = true
  · rw [if_pos h2]
    exact h
  rw [if_neg h2]
  by_cases h3 : (identEmailOf c != "" && decide (identEmailOf c ∈ emails)) = true
  · rw [if_pos h3]
    exact h
  rw [if_neg h3]
  by_cases h4 : (normPhoneOf cmap c != "" && decide (normPhoneOf cmap c ∈ phones)) = true
  · rw [if_pos h4]
    exact h
  rw [if_neg h4]
  by_cases h5 : (namedShape (candName cmap c) &&
      (decide (slugify (candName cmap c) ∈ slugs) ||
       decide (slugify (candName cmap c) ∈ names))) = true
  · rw [if_pos h5]
    exact h
  rw [if_neg h5]
  by_cases h6 : (namedShape (candName cmap c) &&
      decide (2 ≤ (pyWords (candName cmap c)).length) &&
      (decide (firstLastSlug (candName cmap c) ∈ slugs) ||
       decide (firstLastSlug (candName cmap c) ∈ names))) = true
  · rw [if_pos h6]
    exact h
  rw [if_neg h6]
  by_cases h7 : (strContainsChar (candName cmap c) '@' &&
      decide (normalize_email (candName cmap c) ∈ emails)) = true
  · rw [if_pos h7]
    exact h
  rw [if_neg h7]
  by_cases h8 : namedShape (candName cmap c) = true
  · rw [if_pos h8]
    exact h
  rw [if_neg h8]
  by_cases h9 : (strContainsChar (pyStrip c.identifier) '@' &&
      !decide (normalize_email (pyStrip c.identifier) ∈ emails)) = true
  · rw [if_pos h9]
    exact h
  rw [if_neg h9]
  by_cases h10 : (pyStartsWith (pyStrip c.identifier) "+" ||
      is_phone_number (candName cmap c)) = true
  swap
  · rw [if_neg h10]
    exact h
  rw [if_pos h10]
  by_cases h11 : (unknownNumOf cmap c != "" && !decide (unknownNumOf cmap c ∈ acc.seen)) = true
  swap
  · rw [if_neg h11]
    exact h
  rw [if_pos h11]
  by_cases h12 : (resolve_phone_to_name (pyStrip c.identifier) cmap != "") = true
  · rw [if_pos h12]
    exact h
  rw [if_neg h12]
  have hres : resolve_phone_to_name (pyStrip c.identifier) cmap = "" := by
    simpa using h12
  have hr0 : resolvedName cmap c = "" := resolvedName_of_resolve_empty cmap c hres
  have hcc : candContact cmap c = c := candContact_not_resolved cmap c hr0
  have hnum : unknownNumOf cmap c = unknownTok c := by
    unfold unknownNumOf unknownTok
    rw [candName_not_resolved cmap c hr0]
  obtain ⟨hnum_ne, hnum_ni⟩ : unknownNumOf cmap c ≠ "" ∧ unknownNumOf cmap c ∉ acc.seen := by
    simpa using h11
  rw [hnum] at hnum_ne hnum_ni
  rw [hcc, hnum]
  constructor
  · show ((acc.unknown ++ [c]).map unknownTok).Nodup
    rw [List.map_append]
    rw [List.nodup_append]
    refine ⟨h.1, by simp, ?_⟩
    intro a ha hmem
    simp only [List.map_cons, List.map_nil, List.mem_singleton] at hmem
    subst hmem
    exact hnum_ni (h.2 _ ha)
  · show ∀ t ∈ (acc.unknown ++ [c]).map unknownTok, t ∈ insert (unknownTok c) acc.seen
    intro t ht
    rw [List.map_append, List.mem_append] at ht
    rcases ht with ht | ht
    · exact Finset.mem_insert_of_mem (h.2 _ ht)
    · simp only [List.map_cons, List.map_nil, List.mem_singleton] at ht
      subst ht
      exact Finset.mem_insert_self _ _

/-- The whole loop preserves the invariant. -/
theorem foldl_unknown_inv (slugs names emails phones : Finset String)
    (cmap : ContactsMap) (cs : List Contact) :
    ∀ acc, UnknownInv acc →
      UnknownInv (cs.foldl (candStep slugs names emails phones cmap) acc) := by
  induction cs with
  | nil => intro acc h; exact h
  | cons c rest ih =>
    intro acc h
    exact ih _ (candStep_unknown_inv slugs names emails phones cmap acc c h)

end PDS

/-- C2: the unknown-number candidate list never lists the same
normalized phone token twice — for every input, the tokens of the
output unknown-number list are pairwise distinct — and in the
spec's end-to-end scenario (two unresolvable contacts both normalizing
to `+19998887777`) the output contains exactly one unknown-number
candidate. -/
theorem C2_unknown_dedup :
    (∀ (slugs names emails phones : Finset String) (cmap : PDS.ContactsMap)
      (cs : List PDS.Contact),
      (((PDS.gen_core slugs names emails phones cmap cs).2).map PDS.unknownTok).Nodup) ∧
    ((PDS.gen_core ∅ ∅ ∅ ∅ PDS.emptyMap
      [⟨"", "+19998887777", "", [], none⟩,
       ⟨"", "+1 (999) 888-7777", "", [], none⟩]).2).length = 1 := by
  refine ⟨?_, by decide⟩
  intro slugs names emails phones cmap cs
  have hinv := PDS.foldl_unknown_inv slugs names emails phones cmap cs PDS.emptyRAcc
    (by constructor <;> simp [PDS.emptyRAcc])
  simp only [PDS.gen_core]
  have hperm :
      List.Perm
        (PDS.pySortDesc
          (cs.foldl (PDS.candStep slugs names emails phones cmap) PDS.emptyRAcc).unknown)
        (cs.foldl (PDS.candStep slugs names emails phones cmap) PDS.emptyRAcc).unknown :=
    List.perm_insertionSort PDS.contactGE _
  exact ((hperm.map PDS.unknownTok).nodup_iff).mpr hinv.1

namespace PDS

theorem daysInMonth_le (y m : Nat) : daysInMonth y m ≤ 31 := by
  unfold daysInMonth
  split_ifs <;> omega

theorem mkValidDT_bounds (y mo d h mi s : Nat) (dt : PyDateTime)
    (hv : mkValidDT y mo d h mi s = some dt) :
    1 ≤ dt.year ∧ 1 ≤ dt.month ∧ 1 ≤ dt.day ∧ dt.month ≤ 12 ∧ dt.day ≤ 31 ∧
    dt.hour ≤ 23 ∧ dt.minute ≤ 59 ∧ dt.second ≤ 59 := by
  unfold mkValidDT at hv
  split at hv
  · rename_i hc
    cases hv
    have hdm := daysInMonth_le y mo
    simp only []
    omega
  · exact absurd hv (by simp)

theorem strptimeFull_bounds (cs : List Char) (dt : PyDateTime)
    (h : strptimeFull cs = some dt) :
    1 ≤ dt.year ∧ 1 ≤ dt.month ∧ 1 ≤ dt.day ∧ dt.month ≤ 12 ∧ dt.day ≤ 31 ∧
    dt.hour ≤ 23 ∧ dt.minute ≤ 59 ∧ dt.second ≤ 59 := by
  unfold strptimeFull at h
  simp only [bind, Option.bind_eq_some] at h
  obtain ⟨⟨y, mo, d, cs1⟩, -, h⟩ := h
  obtain ⟨cs2, -, h⟩ := h
  obtain ⟨⟨hh, cs3⟩, -, h⟩ := h
  obtain ⟨cs4, -, h⟩ := h
  obtain ⟨⟨mi, cs5⟩, -, h⟩ := h
  obtain ⟨cs6, -, h⟩ := h
  obtain ⟨⟨ss, cs7⟩, -, h⟩ := h
  split at h
  · exact mkValidDT_bounds _ _ _ _ _ _ _ h
  · exact absurd h (by simp)

theorem strptimeNoSec_bounds (cs : List Char) (dt : PyDateTime)
    (h : strptimeNoSec cs = some dt) :
    1 ≤ dt.year ∧ 1 ≤ dt.month ∧ 1 ≤ dt.day ∧ dt.month ≤ 12 ∧ dt.day ≤ 31 ∧
    dt.hour ≤ 23 ∧ dt.minute ≤ 59 ∧ dt.second ≤ 59 := by
  unfold strptimeNoSec at h
  simp only [bind, Option.bind_eq_some] at h
  obtain ⟨⟨y, mo, d, cs1⟩, -, h⟩ := h
  obtain ⟨cs2, -, h⟩ := h
  obtain ⟨⟨hh, cs3⟩, -, h⟩ := h
  obtain ⟨cs4, -, h⟩ := h
  obtain ⟨⟨mi, cs5⟩, -, h⟩ := h
  split at h
  · exact mkValidDT_bounds _ _ _ _ _ _ _ h
  · exact absurd h (by simp)

theorem strptimeDateOnly_bounds (cs : List Char) (dt : PyDateTime)
    (h : strptimeDateOnly cs = some dt) :
    1 ≤ dt.year ∧ 1 ≤ dt.month ∧ 1 ≤ dt.day ∧ dt.month ≤ 12 ∧ dt.day ≤ 31 ∧
    dt.hour ≤ 23 ∧ dt.minute ≤ 59 ∧ dt.second ≤ 59 := by
  unfold strptimeDateOnly at h
  simp only [bind, Option.bind_eq_some] at h
  obtain ⟨⟨y, mo, d, cs1⟩, -, h⟩ := h
  split at h
  · exact mkValidDT_bounds _ _ _ _ _ _ _ h
  · exact absurd h (by simp)

/-- Every datetime produced by `parse_dt_maybe` has its fields in the
`datetime` ranges; in particular it is at least `datetime.min`. -/
theorem parse_dt_bounds (s : String) (dt : PyDateTime) (h : parse_dt_maybe s = some dt) :
    1 ≤ dt.year ∧ 1 ≤ dt.month ∧ 1 ≤ dt.day ∧ dt.month ≤ 12 ∧ dt.day ≤ 31 ∧
    dt.hour ≤ 23 ∧ dt.minute ≤ 59 ∧ dt.second ≤ 59 := by
  unfold parse_dt_maybe at h
  split at h
  · exact absurd h (by simp)
  · simp only [] at h
    split at h
    · rename_i d1 heq
      cases h
      exact strptimeFull_bounds _ _ heq
    · split at h
      · rename_i d2 heq
        cases h
        exact strptimeNoSec_bounds _ _ heq
      · exact strptimeDateOnly_bounds _ _ h

/-- `datetime.min` has the smallest key among parseable datetimes. -/
theorem dtKey_min_le (s : String) (dt : PyDateTime) (h : parse_dt_maybe s = some dt) :
    dtKey datetimeMin ≤ dtKey dt := by
  obtain ⟨h1, h2, h3, -, -, -, -, -⟩ := parse_dt_bounds s dt h
  unfold dtKey datetimeMin
  simp only []
  nlinarith

end PDS

/-- C5: both candidate lists produced by the report are sorted by the
last-message timestamp key, in descending order; `parse_dt_maybe`
never raises — it returns `none` or a datetime for every input,
including the empty string; an unparsable `last_msg` gets the
`datetime.min` key, which is a lower bound of every contact's key (so
such contacts sort last in descending order); and the key comparison
is total. -/
theorem C5_sorted_by_timestamp :
    (∀ (slugs names emails phones : Finset String) (cmap : PDS.ContactsMap)
      (cs : List PDS.Contact),
      ((PDS.gen_core slugs names emails phones cmap cs).1).Pairwise
        (fun a b => PDS.sortKey b ≤ PDS.sortKey a) ∧
      ((PDS.gen_core slugs names emails phones cmap cs).2).Pairwise
        (fun a b => PDS.sortKey b ≤ PDS.sortKey a)) ∧
    PDS.parse_dt_maybe "" = none ∧
    (∀ s, PDS.parse_dt_maybe s = none ∨ ∃ d, PDS.parse_dt_maybe s = some d) ∧
    (∀ c : PDS.Contact, PDS.parse_dt_maybe c.last_msg = none →
      PDS.sortKey c = PDS.dtKey PDS.datetimeMin) ∧
    (∀ c : PDS.Contact, PDS.dtKey PDS.datetimeMin ≤ PDS.sortKey c) ∧
    (∀ a b : PDS.Contact, PDS.sortKey b ≤ PDS.sortKey a ∨ PDS.sortKey a ≤ PDS.sortKey b) := by
  refine ⟨?_, rfl, ?_, ?_, ?_, fun a b => Nat.le_total _ _⟩
  · intro slugs names emails phones cmap cs
    simp only [PDS.gen_core]
    exact ⟨List.sorted_insertionSort PDS.contactGE _,
           List.sorted_insertionSort PDS.contactGE _⟩
  · intro s
    cases h : PDS.parse_dt_maybe s
    · exact Or.inl rfl
    · exact Or.inr ⟨_, rfl⟩
  · intro c h
    unfold PDS.sortKey
    rw [h]
    rfl
  · intro c
    unfold PDS.sortKey
    cases h : PDS.parse_dt_maybe c.last_msg
    · simp
    · simpa using PDS.dtKey_min_le c.last_msg _ h

/-- C5 witness: concrete instances of each hypothesis-bearing
conjunct. -/
theorem C5_witness :
    (PDS.gen_core ∅ ∅ ∅ ∅ PDS.emptyMap
      [⟨"Bob", "", "2025-01-01", [], none⟩,
       ⟨"Eve", "", "2025-06-01 10:00", [], none⟩]).1.Pairwise
      (fun a b => PDS.sortKey b ≤ PDS.sortKey a) ∧
    PDS.sortKey ⟨"Bob", "", "not a date", [], none⟩ = PDS.dtKey PDS.datetimeMin :=
  ⟨(C5_sorted_by_timestamp.1 ∅ ∅ ∅ ∅ PDS.emptyMap
      [⟨"Bob", "", "2025-01-01", [], none⟩, ⟨"Eve", "", "2025-06-01 10:00", [], none⟩]).1,
   C5_sorted_by_timestamp.2.2.2.1 ⟨"Bob", "", "not a date", [], none⟩ (by decide)⟩

namespace PDS

/-- Folding more files on top of an accumulator whose slug set has an
extra element just carries that element along. -/
theorem load_aux_insert (files : List PFile) (x : String) :
    ∀ a b c d : Finset String,
      files.foldl peopleStep (insert x a, b, c, d) =
      (insert x (files.foldl peopleStep (a, b, c, d)).1,
       (files.foldl peopleStep (a, b, c, d)).2.1,
       (files.foldl peopleStep (a, b, c, d)).2.2.1,
       (files.foldl peopleStep (a, b, c, d)).2.2.2) := by
  induction files with
  | nil => intro a b c d; rfl
  | cons f rest ih =>
    intro a b c d
    simp only [List.foldl_cons, peopleStep]
    rw [Finset.Insert.comm]
    exact ih (insert (parse_people_file f).slug a) _ _ _

end PDS

/-- C6: the claim says an unreadable people file contributes nothing
to any of the four aggregate lookup sets.  Counterexample: an
unreadable file `John-Smith.md` still contributes its filename-derived
slug `"john-smith"` to the slug set (an empty directory yields an
empty slug set). -/
theorem C6_counterexample :
    "john-smith" ∈ (PDS.load_people_index [⟨"John-Smith", none⟩]).1 ∧
    (PDS.load_people_index ([] : List PDS.PFile)).1 = ∅ := by decide

/-- C6 (amended): a markdown file whose contents cannot be read yields
an empty record without raising — empty name/email/phone sets, no
last-updated date, and only the filename-derived slug — and
consequently contributes exactly that slug to the slug set and nothing
to the slugified-name, email and phone sets of `load_people_index`. -/
theorem C6_amended (stem : String) (rest : List PDS.PFile) :
    PDS.parse_people_file ⟨stem, none⟩ =
      ⟨PDS.pyLower stem, ∅, ∅, ∅, none⟩ ∧
    PDS.load_people_index (⟨stem, none⟩ :: rest) =
      (insert (PDS.pyLower stem) (PDS.load_people_index rest).1,
       (PDS.load_people_index rest).2.1,
       (PDS.load_people_index rest).2.2.1,
       (PDS.load_people_index rest).2.2.2) := by
  refine ⟨rfl, ?_⟩
  unfold PDS.load_people_index
  simp only [List.foldl_cons, PDS.peopleStep]
  have h1 : PDS.parse_people_file ⟨stem, none⟩ =
      ⟨PDS.pyLower stem, ∅, ∅, ∅, none⟩ := rfl
  rw [h1]
  simp only [Finset.image_empty, Finset.empty_union]
  exact PDS.load_aux_insert rest (PDS.pyLower stem) ∅ ∅ ∅ ∅

namespace PDS

theorem pyDedupAux_subset (l : List String) :
    ∀ seen x, x ∈ pyDedupAux l seen → x ∈ l := by
  induction l with
  | nil => intro seen x h; exact absurd h (by simp [pyDedupAux])
  | cons y rest ih =>
    intro seen x h
    unfold pyDedupAux at h
    split at h
    · exact List.mem_cons_of_mem y (ih _ x h)
    · rcases List.mem_cons.mp h with h | h
      · exact h ▸ List.mem_cons_self y rest
      · exact List.mem_cons_of_mem y (ih _ x h)

theorem phoneTryMatch_shape (cs m rest2 : List Char)
    (h : phoneTryMatch cs = some (m, rest2)) :
    ∃ d t, m = d :: t ∧ d.isDigit = true := by
  unfold phoneTryMatch at h
  split at h
  · exact absurd h (by simp)
  · rename_i d cs2
    split at h
    · rename_i hd
      split at h
      · injection h with h
        injection h with h1 h2
        exact ⟨d, _, h1.symm, hd⟩
      · exact absurd h (by simp)
    · exact absurd h (by simp)

theorem phoneScan_shape (fuel : Nat) :
    ∀ cs m, m ∈ phoneScan fuel cs →
      ∃ d t, m = '+' :: d :: t ∧ d.isDigit = true := by
  induction fuel with
  | zero => intro cs m h; exact absurd h (by simp [phoneScan])
  | succ n ih =>
    intro cs m h
    match cs with
    | [] => exact absurd h (by simp [phoneScan])
    | c :: rest =>
      unfold phoneScan at h
      split at h
      · split at h
        · rename_i m0 r2 heq
          rcases List.mem_cons.mp h with h | h
          · obtain ⟨d, t, h1, h2⟩ := phoneTryMatch_shape rest m0 r2 heq
            exact ⟨d, t, by rw [h, h1], h2⟩
          · exact ih _ _ h
        · exact ih _ _ h
      · exact ih _ _ h

theorem getLast_dropWhile (p : Char → Bool) (c : Char) (hc : p c = false) :
    ∀ M : List Char, M.getLast? = some c → (M.dropWhile p).getLast? = some c := by
  intro M
  induction M with
  | nil => intro h; exact absurd h (by simp)
  | cons x rest ih =>
    intro h
    match rest, h, ih with
    | [], h, _ =>
      have hx : x = c := by simpa using h
      subst hx
      simp [List.dropWhile, hc]
    | y :: rest2, h, ih =>
      rw [List.getLast?_cons_cons] at h
      rw [List.dropWhile_cons]
      split
      · exact ih h
      · rw [List.getLast?_cons_cons]
        exact h

theorem pyStripList_head_plus (t : List Char) :
    (pyStripList ('+' :: t)).head? = some '+' := by
  unfold pyStripList
  rw [List.dropWhile_cons]
  have h1 : (Char.isWhitespace '+') = false := by decide
  rw [if_neg (by simp [h1])]
  rw [List.head?_reverse]
  apply getLast_dropWhile _ _ h1
  rw [List.getLast?_reverse]
  rfl

theorem head_plus_isPrefixOf (s : String) (h : s.data.head? = some '+') :
    pyStartsWith s "+" = true := by
  unfold pyStartsWith
  cases hd : s.data with
  | nil =>
    rw [hd] at h
    exact absurd h (by simp)
  | cons c rest =>
    rw [hd] at h
    have hc : c = '+' := by simpa using h
    subst hc
    have hplus : ("+" : String).data = ['+'] := rfl
    rw [hplus]
    simp [List.isPrefixOf]

theorem normalize_phone_plus_digit (m : String) (d : Char) (t : List Char)
    (hm : m.data = '+' :: d :: t) (hd : d.isDigit = true) :
    (normalize_phone m).data.head? = some '+' ∧
    (normalize_phone m).data.tail ≠ [] ∧
    (normalize_phone m).data.tail.all Char.isDigit = true := by
  have hplusd : ('+' : Char).isDigit = false := by decide
  have hfil : m.data.filter Char.isDigit ≠ [] := by
    rw [hm]
    simp [hplusd, hd]
  have hplus : pyStartsWith (pyStrip m) "+" = true := by
    apply head_plus_isPrefixOf
    show (String.mk (pyStripList m.data)).data.head? = some '+'
    rw [hm]
    exact pyStripList_head_plus (d :: t)
  rw [normalize_phone_spec, if_neg hfil, if_pos hplus]
  have hdata : (("+" : String) ++ String.mk (m.data.filter Char.isDigit)).data =
      '+' :: m.data.filter Char.isDigit := rfl
  rw [hdata]
  refine ⟨rfl, by simpa using hfil, ?_⟩
  simp only [List.tail_cons, List.all_eq_true]
  intro x hx
  exact (List.mem_filter.mp hx).2

theorem extract_phones_shape (text p : String) (hp : p ∈ extract_phones text) :
    p.data.head? = some '+' ∧ p.data.tail ≠ [] ∧ p.data.tail.all Char.isDigit = true := by
  unfold extract_phones at hp
  split at hp
  · exact absurd hp (by simp)
  · have hp2 := pyDedupAux_subset _ _ _ hp
    rw [List.mem_filter] at hp2
    obtain ⟨hp3, -⟩ := hp2
    rw [List.mem_map] at hp3
    obtain ⟨m, hmem, rfl⟩ := hp3
    obtain ⟨d, t, hshape, hd⟩ := phoneScan_shape _ _ _ hmem
    exact normalize_phone_plus_digit (String.mk m) d t (by rw [hshape]) hd

theorem load_phones_mem (files : List PFile) (p : String) :
    ∀ acc, p ∈ (files.foldl peopleStep acc).2.2.2 →
      p ∈ acc.2.2.2 ∨ ∃ f ∈ files, p ∈ (parse_people_file f).phones := by
  induction files with
  | nil => intro acc h; exact Or.inl h
  | cons f rest ih =>
    intro acc h
    rcases ih (peopleStep acc f) h with h | ⟨g, hg, hp⟩
    · simp only [peopleStep] at h
      rcases Finset.mem_union.mp h with h | h
      · exact Or.inl h
      · exact Or.inr ⟨f, List.mem_cons_self f rest, h⟩
    · exact Or.inr ⟨g, List.mem_cons_of_mem f hg, hp⟩

end PDS

/-- C9: every element of the People-File phone set produced by
`load_people_index` is a `+` followed by at least one character, all
of which are digits; consequently an observed identifier that does not
start with `+` can never be a member of this set. -/
theorem C9_phone_set_shape :
    (∀ (files : List PDS.PFile) (p : String),
      p ∈ (PDS.load_people_index files).2.2.2 →
      p.data.head? = some '+' ∧ p.data.tail ≠ [] ∧
      p.data.tail.all Char.isDigit = true) ∧
    (∀ (files : List PDS.PFile) (q : String),
      PDS.pyStartsWith q "+" = false → q ∉ (PDS.load_people_index files).2.2.2) := by
  have hmain : ∀ (files : List PDS.PFile) (p : String),
      p ∈ (PDS.load_people_index files).2.2.2 →
      p.data.head? = some '+' ∧ p.data.tail ≠ [] ∧
      p.data.tail.all Char.isDigit = true := by
    intro files p hp
    rcases PDS.load_phones_mem files p _ hp with h | ⟨f, -, hp2⟩
    · exact absurd h (by simp)
    · unfold PDS.parse_people_file at hp2
      cases hf : f.content with
      | none =>
        rw [hf] at hp2
        exact absurd hp2 (by simp)
      | some text =>
        rw [hf] at hp2
        simp only [List.mem_toFinset] at hp2
        exact PDS.extract_phones_shape text p hp2
  refine ⟨hmain, fun files q hq hmem => ?_⟩
  obtain ⟨h1, -, -⟩ := hmain files q hmem
  rw [PDS.head_plus_isPrefixOf q h1] at hq
  exact Bool.noConfusion hq

/-- C9 witness: a formatted phone in a people file lands in the phone
set as `+` plus digits. -/
theorem C9_witness :
    ("+14155551234" : String).data.head? = some '+' ∧
    ("+14155551234" : String).data.tail ≠ [] ∧
    ("+14155551234" : String).data.tail.all Char.isDigit = true :=
  C9_phone_set_shape.1 [⟨"alice", some "# Alice\nPhone: +1 415 555 1234\n"⟩]
    "+14155551234" (by decide)

/-- C8: the claim says re-running the report generator on identical
inputs produces byte-identical output with no dependence on the
current time.  Counterexample: the report embeds
`datetime.now()` in its `*Generated: ...*` line, so two runs of
`generate_new_people_candidates_report` on identical (empty) inputs at
different clock minutes produce different bytes. -/
theorem C8_counterexample :
    PDS.generate_new_people_candidates_report ∅ ∅ ∅ ∅ PDS.emptyMap [] "2025-01-01 00:00" ≠
    PDS.generate_new_people_candidates_report ∅ ∅ ∅ ∅ PDS.emptyMap [] "2025-01-01 00:01" := by
  decide

/-- C8 (amended): the report text is a pure function of the
classification inputs and the formatted generation timestamp: it
factors as a fixed header, the `*Generated: <now>*` line, and a body
`report_body` that depends only on the inputs; hence two runs on
identical inputs are byte-identical if and only if their generation
timestamps coincide. -/
theorem C8_amended (slugs names emails phones : Finset String) (cmap : PDS.ContactsMap)
    (cs : List PDS.Contact) (now1 now2 : String) :
    (PDS.generate_new_people_candidates_report slugs names emails phones cmap cs now1 =
      "# New People Candidates (from iMessages)\n" ++ "*Generated: " ++ now1 ++ "*\n\n" ++
      PDS.report_body slugs names emails phones cmap cs) ∧
    (PDS.generate_new_people_candidates_report slugs names emails phones cmap cs now1 =
     PDS.generate_new_people_candidates_report slugs names emails phones cmap cs now2 ↔
     now1 = now2) := by
  have hfact : ∀ now : String,
      PDS.generate_new_people_candidates_report slugs names emails phones cmap cs now =
      "# New People Candidates (from iMessages)\n" ++ "*Generated: " ++ now ++ "*\n\n" ++
      PDS.report_body slugs names emails phones cmap cs := by
    intro now
    unfold PDS.generate_new_people_candidates_report PDS.report_body
    apply PDS.string_data_inj
    simp only [String.data_append, List.append_assoc]
  refine ⟨hfact now1, ?_, fun h => by rw [h]⟩
  intro h
  rw [hfact now1, hfact now2] at h
  have hd := congrArg String.data h
  simp only [String.data_append, List.append_assoc] at hd
  have hd2 := List.append_cancel_left hd
  have hd3 := List.append_cancel_left hd2
  exact PDS.string_data_inj (List.append_cancel_right hd3)
